import Mathlib

/-!
Shallow embedding of the PRD-to-plan component mapping pipeline of this
repository, together with theorems settling the specification claims.

The embedding covers:
* `service/mapping/component_mapper.py` (the basic `ComponentMappingService`):
  requirement parsing, priority extraction, requirement-type classification,
  complexity scoring, component selection, duration estimation, workflow
  mappings, execution plan, validation strategy, and the top-level
  `create_project_workflow_mappings` with its error handler.
* `core/agent/service/mapping/component_mapper.py` (the enhanced service):
  phase construction (`_create_execution_plan`), complexity level from
  `_analyze_prd_content`, and `_create_validation_strategy`.

Python strings are modelled as Lean `String`/`List Char`; Python floats as
exact rationals `ℚ` (`round(x, 2)` becomes rounding to two decimals, `int(x)`
truncation toward zero); Python dicts as insertion-ordered association lists.
-/

namespace AstronMapper

/-! ## String utilities (Python semantics) -/

/-- Characters Python's `str.strip()` removes by default. -/
def isPyWhitespace (c : Char) : Bool :=
  c = ' ' || c = '\t' || c = '\n' || c = '\r' || c = '\x0b' || c = '\x0c'

/-- Python `str.strip()` on a character list. -/
def pyStripList (l : List Char) : List Char :=
  ((l.dropWhile isPyWhitespace).reverse.dropWhile isPyWhitespace).reverse

/-- Python `str.strip()`. -/
def pyStrip (s : String) : String :=
  String.mk (pyStripList s.toList)

/-- Python `str.lower()` (ASCII range, which is all the source's patterns use). -/
def lowList (s : String) : List Char :=
  s.toList.map Char.toLower

/-- Python `str.split('\n')`: split at every newline, keeping empty parts;
the empty string yields one empty part. -/
def splitNl : List Char → List (List Char)
  | [] => [[]]
  | c :: rest =>
    if c = '\n' then [] :: splitNl rest
    else
      match splitNl rest with
      | [] => [[c]]
      | g :: gs => (c :: g) :: gs

/-- The lines of a document, as Python's `content.split('\n')` produces them. -/
def pyLines (s : String) : List String :=
  (splitNl s.toList).map String.mk

/-- `occursIn p t` is Python's `p in t` substring test. -/
def occursIn (p : List Char) : List Char → Bool
  | [] => p.isEmpty
  | c :: rest => p.isPrefixOf (c :: rest) || occursIn p rest

/-- Left-to-right scan counting non-overlapping occurrences of a literal
pattern; `skip` is the number of positions still covered by the previous
match (structural recursion on the text). -/
def countOccGo (p : List Char) : List Char → Nat → Nat
  | [], _ => 0
  | _ :: rest, (k + 1) => countOccGo p rest k
  | c :: rest, 0 =>
    if p.isPrefixOf (c :: rest) && !p.isEmpty then
      1 + countOccGo p rest (p.length - 1)
    else
      countOccGo p rest 0

/-- Number of non-overlapping occurrences of a nonempty literal pattern in a
text, scanning left to right: the semantics of `re.findall` on a literal. -/
def countOcc (p t : List Char) : Nat :=
  countOccGo p t 0

/-- Word characters for the regex `\b` boundary: `[A-Za-z0-9_]` (the inputs
the complexity scorer sees are lowercased first). -/
def isWordChar (c : Char) : Bool :=
  c.isAlpha || c.isDigit || c = '_'

/-- Maximal runs of word characters: the "words" that `\b`-delimited literal
alternatives of `re.findall` can match. -/
def wordRuns (l : List Char) : List (List Char) :=
  (l.splitOnP (fun c => !isWordChar c)).filter (fun w => !w.isEmpty)

/-! ## Rational arithmetic helpers (Python float operations, idealized) -/

/-- Python's `round` to an integer: nearest, ties to even. -/
def roundHalfEven (q : ℚ) : ℤ :=
  if q - ⌊q⌋ < 1 / 2 then ⌊q⌋
  else if 1 / 2 < q - ⌊q⌋ then ⌊q⌋ + 1
  else if ⌊q⌋ % 2 = 0 then ⌊q⌋ else ⌊q⌋ + 1

/-- Python `round(x, 2)`: round to two decimal places. -/
def round2 (q : ℚ) : ℚ :=
  (roundHalfEven (q * 100) : ℚ) / 100

/-- Python `int(x)`: truncation toward zero. -/
def pyInt (q : ℚ) : ℤ :=
  if 0 ≤ q then ⌊q⌋ else ⌈q⌉

/-! ## Requirement classifier
(`ComponentMappingService._classify_requirement_type` and
`requirement_patterns`, `service/mapping/component_mapper.py`) -/

/-- `requirement_patterns["ui"]`. -/
def uiPatterns : List String :=
  ["user interface", "ui", "frontend", "web page", "form",
   "button", "navigation", "layout", "responsive", "visual"]

/-- `requirement_patterns["api"]`. -/
def apiPatterns : List String :=
  ["api", "endpoint", "service", "rest", "graphql",
   "microservice", "integration", "webhook", "http"]

/-- `requirement_patterns["data"]`. -/
def dataPatterns : List String :=
  ["database", "data", "storage", "persistence", "sql",
   "nosql", "migration", "backup", "report", "analytics"]

/-- `requirement_patterns["ai"]`. -/
def aiPatterns : List String :=
  ["artificial intelligence", "ai", "machine learning", "ml",
   "intelligent", "smart", "prediction", "analysis", "nlp"]

/-- `requirement_patterns["system"]`. -/
def systemPatterns : List String :=
  ["system", "infrastructure", "deployment", "monitoring",
   "security", "performance", "scalability", "availability"]

/-- The `requirement_patterns` table, in source (dict-insertion) order. -/
def requirementPatterns : List (String × List String) :=
  [("ui", uiPatterns), ("api", apiPatterns), ("data", dataPatterns),
   ("ai", aiPatterns), ("system", systemPatterns)]

/-- Total `re.findall` match count of a category's pattern list against a
(lowercased) text: the loop `score += matches`. -/
def patScore (t : List Char) (pats : List String) : Nat :=
  (pats.map (fun p => countOcc p.toList t)).sum

/-- The `type_scores` dict: category name paired with its score. -/
def typeScores (t : List Char) : List (String × Nat) :=
  requirementPatterns.map (fun cp => (cp.1, patScore t cp.2))

/-- Python's `max(iterable)` over the score values (all values are `Nat`,
so folding `max` from `0` agrees with Python's max of a nonempty list). -/
def maxScore (sc : List (String × Nat)) : Nat :=
  (sc.map (fun p => p.2)).foldl (fun a b => max a b) 0

/-- Python's `max(d, key=d.get)`: scan in insertion order, keep the first
entry whose value is strictly greater than the current best — hence the
first entry attaining the maximum wins. -/
def pyMaxByValue (sc : List (String × Nat)) : String :=
  match sc with
  | [] => "system"
  | x :: xs => (xs.foldl (fun best p => if p.2 > best.2 then p else best) x).1

/-- `_classify_requirement_type`: score each category, return `"system"` when
every score is zero, otherwise the first category (in dict order) attaining
the maximal score. -/
def classifyRequirementType (s : String) : String :=
  let sc := typeScores (lowList s)
  if maxScore sc = 0 then "system" else pyMaxByValue sc

/-- Modelled from the spec's words (§4.2 / C1): the category priority order
used for tie-breaking. -/
def specCategoryOrder : List String := ["ui", "api", "data", "ai", "system"]

/-- Modelled from the spec's words: the score of one category. -/
def specCatScore (t : List Char) (cat : String) : Nat :=
  patScore t ((requirementPatterns.lookup cat).getD [])

/-- Modelled from the spec's words (§4.2 / C1): winning category = argmax of
the scores, ties broken by taking the first category in the priority order
ui → api → data → ai → system that attains the maximum; all-zero scores give
`"system"`. -/
def classifySpecArgmax (s : String) : String :=
  let t := lowList s
  let m := (specCategoryOrder.map (specCatScore t)).foldl (fun a b => max a b) 0
  if m = 0 then "system"
  else if specCatScore t "ui" = m then "ui"
  else if specCatScore t "api" = m then "api"
  else if specCatScore t "data" = m then "data"
  else if specCatScore t "ai" = m then "ai"
  else "system"

/-! ## Priority extraction (`_extract_priority`) -/

/-- The high-priority indicator substrings. -/
def highPriorityWords : List String := ["critical", "urgent", "high", "must"]

/-- The low-priority indicator substrings. -/
def lowPriorityWords : List String := ["low", "nice", "optional"]

/-- `_extract_priority`: `"high"` when the lowercased text contains any high
indicator, else `"low"` when it contains any low indicator, else `"medium"`. -/
def extractPriority (text : String) : String :=
  if highPriorityWords.any (fun w => occursIn w.toList (lowList text)) then "high"
  else if lowPriorityWords.any (fun w => occursIn w.toList (lowList text)) then "low"
  else "medium"

/-! ## Requirement extraction (`_parse_requirements`) -/

/-- The substrings whose presence opens a new requirement block. -/
def requirementIndicators : List String :=
  ["requirement", "feature", "functionality", "must", "should"]

/-- `any(indicator in line.lower() for indicator in [...])`. -/
def isIndicatorLine (line : String) : Bool :=
  requirementIndicators.any (fun w => occursIn w.toList (lowList line))

/-- A requirement dict as `_parse_requirements` builds it. -/
structure ParsedReq where
  id : String
  title : String
  description : String
  content : List String
  priority : String
  rtype : String
deriving DecidableEq, Repr

/-- One iteration of the `for line in lines` loop: state is the pair
(`requirements` so far, `current_requirement`). -/
def parseStep (st : List ParsedReq × Option ParsedReq) (rawLine : String) :
    List ParsedReq × Option ParsedReq :=
  let line := pyStrip rawLine
  if isIndicatorLine line then
    let completed :=
      match st.2 with
      | some r => st.1 ++ [r]
      | none => st.1
    (completed,
     some { id := "req_" ++ toString (completed.length + 1)
          , title := line
          , description := line
          , content := [line]
          , priority := extractPriority line
          , rtype := "general" })
  else
    match st.2 with
    | some r =>
      if line ≠ "" then
        (st.1, some { r with content := r.content ++ [line]
                           , description := r.description ++ " " ++ line })
      else (st.1, some r)
    | none => st

/-- Python `prd_content[:500] + "..." if len(prd_content) > 500 else prd_content`. -/
def pyTrunc (s : String) : String :=
  if s.toList.length > 500 then String.mk (s.toList.take 500) ++ "..." else s

/-- The synthetic requirement emitted when no structured requirement is found. -/
def generalReq (prd : String) : ParsedReq :=
  { id := "req_general"
  , title := "General System Requirements"
  , description := pyTrunc prd
  , content := [prd]
  , priority := "medium"
  , rtype := "general" }

/-- `_parse_requirements`: scan the stripped lines, open a block on each
indicator line, append nonempty lines to the open block, close the last
block, and fall back to the single synthetic requirement when none found. -/
def parseRequirements (prd : String) : List ParsedReq :=
  let st := (pyLines prd).foldl parseStep ([], none)
  let reqs :=
    match st.2 with
    | some r => st.1 ++ [r]
    | none => st.1
  if reqs.isEmpty then [generalReq prd] else reqs

/-! ## Complexity scoring (`_calculate_complexity`) -/

/-- The technical terms of the regex `\b(api|database|integration|security|performance)\b`. -/
def technicalTerms : List String :=
  ["api", "database", "integration", "security", "performance"]

/-- Whole-word (`\b`-delimited) match count of the technical-term alternation
against the lowercased description: a maximal word-character run matches iff
it equals one of the five terms. -/
def countTechnicalTerms (description : String) : Nat :=
  (wordRuns (lowList description)).countP
    (fun w => (technicalTerms.map String.toList).contains w)

/-- `{"high": 0.8, "medium": 0.5, "low": 0.3}.get(priority, 0.5)`. -/
def priorityScoreOf (priority : String) : ℚ :=
  if priority = "high" then 8/10
  else if priority = "medium" then 5/10
  else if priority = "low" then 3/10
  else 5/10

/-- `_calculate_complexity`: weighted average of length, technical-term and
priority scores, rounded to two decimals. -/
def calculateComplexity (description priority : String) : ℚ :=
  let lengthScore : ℚ := min ((description.toList.length : ℚ) / 1000) 1
  let technicalScore : ℚ := min ((countTechnicalTerms description : ℚ) / 10) 1
  let priorityScore := priorityScoreOf priority
  round2 (lengthScore * (3 / 10) + technicalScore * (4 / 10) + priorityScore * (3 / 10))

/-! ## Per-requirement component selection and estimates -/

/-- The `type_to_category` map (with default `"system_automation"`). -/
def typeToCategory (reqType : String) : String :=
  if reqType = "ui" then "ui_testing"
  else if reqType = "api" then "api_testing"
  else if reqType = "data" then "data_processing"
  else if reqType = "ai" then "ai_processing"
  else if reqType = "system" then "system_automation"
  else "system_automation"

/-- `component_capabilities[category]["components"]`. -/
def categoryComponents (category : String) : List String :=
  if category = "ui_testing" then ["rpabrowser", "rpacv", "rpawindow"]
  else if category = "api_testing" then ["rpanetwork", "rpaopenapi"]
  else if category = "data_processing" then ["rpadatabase", "rpaexcel", "rpapdf", "rpadocx"]
  else if category = "ai_processing" then ["rpaai", "rpaverifycode"]
  else ["rpasystem", "rpaencrypt", "rpaemail", "rpaenterprise"]

/-- `_determine_components` (the `req_text` argument is unused in the source). -/
def determineComponents (reqType : String) : List String :=
  categoryComponents (typeToCategory reqType)

/-- `_determine_validation_strategy` (the `req_type` argument is unused). -/
def determineValidationStrategy (complexity : ℚ) : String :=
  if complexity > 7 / 10 then "comprehensive"
  else if complexity > 4 / 10 then "standard"
  else "basic"

/-- `base_durations.get(req_type, 300)`. -/
def baseDurationOf (reqType : String) : ℚ :=
  if reqType = "ui" then 240
  else if reqType = "api" then 180
  else if reqType = "data" then 300
  else if reqType = "ai" then 420
  else if reqType = "system" then 360
  else 300

/-- `_estimate_duration`: `int(base_duration * (1 + complexity))` — note the
Python `int()` truncation. -/
def estimateDuration (reqType : String) (complexity : ℚ) : ℤ :=
  pyInt (baseDurationOf reqType * (1 + complexity))

/-! ## Requirement analysis (`_analyze_requirement`) -/

/-- The `RequirementAnalysis` pydantic model. -/
structure RequirementAnalysis where
  id : String
  rtype : String
  priority : String
  complexity : ℚ
  componentsNeeded : List String
  validationStrategy : String
  estimatedDuration : ℤ
deriving DecidableEq, Repr

/-- `_analyze_requirement`: classify the description (the source lowercases it
first; classification lowercases again under `re.IGNORECASE`, so composing is
the same), score complexity from the description and priority, then derive
components, validation strategy, and duration. -/
def analyzeRequirement (r : ParsedReq) : RequirementAnalysis :=
  let reqType := classifyRequirementType r.description
  let complexity := calculateComplexity r.description r.priority
  { id := r.id
  , rtype := reqType
  , priority := r.priority
  , complexity := complexity
  , componentsNeeded := determineComponents reqType
  , validationStrategy := determineValidationStrategy complexity
  , estimatedDuration := estimateDuration reqType complexity }

/-! ## Enhanced mapper: PRD complexity level
(`core/agent/service/mapping/component_mapper.py`, `_analyze_prd_content`) -/

/-- Left-to-right alternation scan with a skip counter (structural
recursion on the text), as `countOccGo` but trying the alternatives in
order at each position. -/
def countAltOccGo (alts : List (List Char)) : List Char → Nat → Nat
  | [], _ => 0
  | _ :: rest, (k + 1) => countAltOccGo alts rest k
  | c :: rest, 0 =>
    match alts.find? (fun p => p.isPrefixOf (c :: rest) && !p.isEmpty) with
    | some p => 1 + countAltOccGo alts rest (p.length - 1)
    | none => countAltOccGo alts rest 0

/-- `re.findall` count for an alternation of nonempty literal alternatives:
scan left to right, at each position try the alternatives in order, consume
the first that matches. -/
def countAltOcc (alts : List (List Char)) (t : List Char) : Nat :=
  countAltOccGo alts t 0

/-- The five `complexity_factors` alternation patterns of `_analyze_prd_content`. -/
def complexityFactorPatterns : List (List String) :=
  [ ["auth", "login", "user", "permission"]
  , ["database", "sql", "data", "crud"]
  , ["api", "endpoint", "integration"]
  , ["form", "page", "component", "interface"]
  , ["business", "logic", "rule", "workflow"] ]

/-- `total_complexity = sum(complexity_factors.values())`. -/
def totalComplexityScore (prd : String) : Nat :=
  (complexityFactorPatterns.map
    (fun alts => countAltOcc (alts.map String.toList) (lowList prd))).sum

/-- `complexity_level`: `"basic"` below 10, `"standard"` below 25, else
`"comprehensive"`. -/
def complexityLevelOf (totalComplexity : Nat) : String :=
  if totalComplexity < 10 then "basic"
  else if totalComplexity < 25 then "standard"
  else "comprehensive"

/-! ## Enhanced mapper: execution plan (`_create_execution_plan`) -/

/-- One execution phase of the enhanced mapper. -/
structure Phase where
  phase : Nat
  name : String
  category : String
  components : List String
  estimatedDurationMinutes : Nat
  dependencies : List Nat
deriving DecidableEq, Repr

/-- The fixed `category_priority` emission order. -/
def categoryPriority : List String :=
  ["system_automation", "data_processing", "api_testing", "ui_testing", "ai_processing"]

/-- Python `str.title()`: uppercase each letter that follows a non-letter,
lowercase the other letters. -/
def pyTitleGo (prevAlpha : Bool) : List Char → List Char
  | [] => []
  | c :: rest =>
    (if c.isAlpha && !prevAlpha then c.toUpper
     else if c.isAlpha then c.toLower else c) :: pyTitleGo c.isAlpha rest

/-- `f"{category.replace('_', ' ').title()} Phase"`. -/
def phaseName (category : String) : String :=
  String.mk (pyTitleGo false
    (category.toList.map (fun c => if c = '_' then ' ' else c))) ++ " Phase"

/-- The phase record built inside the loop, for phase number `n` (1-based). -/
def mkPhase (n : Nat) (category : String) (comps : List String) : Phase :=
  { phase := n
  , name := phaseName category
  , category := category
  , components := comps
  , estimatedDurationMinutes := comps.length * 15
  , dependencies := if n = 1 then [] else [n - 1] }

/-- The `for category in category_priority` loop: emit a phase for each
category present in the selected-components mapping, numbering from `n`.
The mapping is given as category name paired with the names of the selected
components of that category. -/
def buildPhases (comps : List (String × List String)) :
    List String → Nat → List Phase
  | [], _ => []
  | cat :: rest, n =>
    match comps.lookup cat with
    | some cs => mkPhase n cat cs :: buildPhases comps rest (n + 1)
    | none => buildPhases comps rest n

/-- The dict `_create_execution_plan` returns. -/
structure ExecutionPlanEnhanced where
  phases : List Phase
  totalPhases : Nat
  estimatedTotalDurationMinutes : Nat
  parallelExecutionPossible : Bool
deriving DecidableEq, Repr

/-- `_create_execution_plan` of the enhanced mapper. -/
def createExecutionPlanEnhanced (comps : List (String × List String)) :
    ExecutionPlanEnhanced :=
  let phases := buildPhases comps categoryPriority 1
  { phases := phases
  , totalPhases := phases.length
  , estimatedTotalDurationMinutes :=
      (phases.map (fun p => p.estimatedDurationMinutes)).sum
  , parallelExecutionPossible := phases.length > 1 }

/-! ## Enhanced mapper: validation strategy (`_create_validation_strategy`) -/

/-- One entry of `validation_types`. -/
structure ValidationType where
  vtype : String
  description : String
  components : List String
  confidenceThreshold : ℚ
deriving DecidableEq, Repr

/-- The `success_criteria` dict. -/
structure SuccessCriteria where
  minimumConfidence : ℚ
  requiredValidations : Nat
  allowPartialSuccess : Bool
deriving DecidableEq, Repr

/-- The dict `_create_validation_strategy` (enhanced mapper) returns. -/
structure ValidationStrategyEnhanced where
  validationTypes : List ValidationType
  overallStrategy : String
  successCriteria : SuccessCriteria
deriving DecidableEq, Repr

/-- The `ui_validation` entry. -/
def uiValidationType : ValidationType :=
  { vtype := "ui_validation"
  , description := "Validate user interface functionality and responsiveness"
  , components := ["rpabrowser", "rpacv", "rpawindow"]
  , confidenceThreshold := 8 / 10 }

/-- The `api_validation` entry. -/
def apiValidationType : ValidationType :=
  { vtype := "api_validation"
  , description := "Validate API endpoints and data contracts"
  , components := ["rpanetwork", "rpaopenapi"]
  , confidenceThreshold := 9 / 10 }

/-- The `data_validation` entry. -/
def dataValidationType : ValidationType :=
  { vtype := "data_validation"
  , description := "Validate data processing and file operations"
  , components := ["rpadatabase", "rpaexcel", "rpapdf", "rpadocx"]
  , confidenceThreshold := 85 / 100 }

/-- The `intelligence_validation` entry. -/
def intelligenceValidationType : ValidationType :=
  { vtype := "intelligence_validation"
  , description := "Validate AI-powered analysis and decision making"
  , components := ["rpaai", "rpaverifycode"]
  , confidenceThreshold := 75 / 100 }

/-- `_create_validation_strategy` of the enhanced mapper: one validation type
per category present in the component mapping (`system_automation` adds
none), `overall_strategy` by count, and `success_criteria` from the
complexity level of the PRD analysis. -/
def createValidationStrategyEnhanced (level : String)
    (comps : List (String × List String)) : ValidationStrategyEnhanced :=
  let vts :=
    (if (comps.lookup "ui_testing").isSome then [uiValidationType] else []) ++
    (if (comps.lookup "api_testing").isSome then [apiValidationType] else []) ++
    (if (comps.lookup "data_processing").isSome then [dataValidationType] else []) ++
    (if (comps.lookup "ai_processing").isSome then [intelligenceValidationType] else [])
  { validationTypes := vts
  , overallStrategy := if vts.length > 2 then "comprehensive" else "standard"
  , successCriteria :=
    { minimumConfidence := 8 / 10
    , requiredValidations := vts.length
    , allowPartialSuccess := level == "basic" } }

/-! ## Basic mapper: workflow mappings
(`_create_workflow_mappings`, `_get_category_for_type`, `_get_validation_rules`) -/

/-- The `workflow_config` dict of one mapping entry. -/
structure WorkflowConfig where
  workflowType : String
  validationStrategy : String
  complexityLevel : ℚ
  priority : String
  timeout : ℤ
  validationRules : List String
deriving DecidableEq, Repr

/-- One entry of the `mappings` dict. -/
structure WorkflowMapping where
  requirement : RequirementAnalysis
  componentCategory : String
  components : List String
  config : WorkflowConfig
deriving DecidableEq, Repr

/-- `base_rules.get(req_type, ["basic_validation"])`. -/
def baseValidationRules (reqType : String) : List String :=
  if reqType = "ui" then ["element_presence", "functionality", "responsiveness"]
  else if reqType = "api" then ["response_validation", "status_codes", "performance"]
  else if reqType = "data" then ["data_integrity", "consistency", "backup_validation"]
  else if reqType = "ai" then ["accuracy", "performance", "edge_cases"]
  else if reqType = "system" then ["availability", "performance", "security"]
  else ["basic_validation"]

/-- `_get_validation_rules`. -/
def getValidationRules (reqType strategy : String) : List String :=
  if strategy = "comprehensive" then
    baseValidationRules reqType ++
      ["stress_testing", "edge_case_validation", "security_checks"]
  else if strategy = "standard" then
    baseValidationRules reqType ++ ["performance_checks"]
  else baseValidationRules reqType

/-- `_create_workflow_mappings`: one entry per requirement, keyed by its id
(ids are distinct by construction, so the insertion-ordered association list
is the dict). `_get_category_for_type` is the same map as `type_to_category`. -/
def createWorkflowMappings (reqs : List RequirementAnalysis) :
    List (String × WorkflowMapping) :=
  reqs.map (fun req =>
    (req.id,
     { requirement := req
     , componentCategory := typeToCategory req.rtype
     , components := req.componentsNeeded
     , config :=
       { workflowType := req.rtype ++ "_validation"
       , validationStrategy := req.validationStrategy
       , complexityLevel := req.complexity
       , priority := req.priority
       , timeout := req.estimatedDuration
       , validationRules := getValidationRules req.rtype req.validationStrategy } }))

/-! ## Basic mapper: execution plan (`_create_execution_plan`) -/

/-- The dict the basic `_create_execution_plan` returns; the three
`priority_groups` buckets are spelled out. -/
structure ExecutionPlanBasic where
  totalRequirements : Nat
  executionOrder : List String
  parallelGroups : List (List String)
  priorityHigh : List String
  priorityMedium : List String
  priorityLow : List String
  typeGroups : List (String × List String)
  estimatedDuration : ℤ
  parallelizationFactor : Nat
deriving DecidableEq, Repr

/-- Append `v` to the bucket of key `k` of an insertion-ordered dict of
lists, creating the bucket at the end when absent. -/
def addToGroups (gs : List (String × List String)) (k v : String) :
    List (String × List String) :=
  match gs with
  | [] => [(k, [v])]
  | (q, vs) :: rest =>
    if q = k then (q, vs ++ [v]) :: rest else (q, vs) :: addToGroups rest k v

/-- The `type_groups` dict: requirement ids bucketed by type in encounter
order. -/
def typeGroupsOf (reqs : List RequirementAnalysis) : List (String × List String) :=
  reqs.foldl (fun gs r => addToGroups gs r.rtype r.id) []

/-- `_create_execution_plan` of the basic mapper. Appending each requirement
id to `priority_groups[req.priority]` in order is filtering by priority
(every priority the pipeline produces is one of the three bucket keys). -/
def createExecutionPlanBasic (reqs : List RequirementAnalysis) : ExecutionPlanBasic :=
  let high := (reqs.filter (fun r => r.priority = "high")).map (fun r => r.id)
  let medium := (reqs.filter (fun r => r.priority = "medium")).map (fun r => r.id)
  let low := (reqs.filter (fun r => r.priority = "low")).map (fun r => r.id)
  let tg := typeGroupsOf reqs
  let parallelGroups := tg.map (fun g => g.2)
  let maxGroupDuration :=
    (parallelGroups.map (fun g =>
      ((reqs.filter (fun r => g.contains r.id)).map
        (fun r => r.estimatedDuration)).sum)).foldl (fun a b => max a b) 0
  { totalRequirements := reqs.length
  , executionOrder := high ++ medium ++ low
  , parallelGroups := parallelGroups
  , priorityHigh := high
  , priorityMedium := medium
  , priorityLow := low
  , typeGroups := tg
  , estimatedDuration := maxGroupDuration
  , parallelizationFactor := parallelGroups.length }

/-! ## Basic mapper: project validation strategy (`_create_validation_strategy`) -/

/-- The dict the basic `_create_validation_strategy` returns; the fixed
`success_criteria` sub-dict is spelled out. -/
structure ValidationStrategyBasic where
  primaryStrategy : String
  strategyDistribution : List (String × Nat)
  averageComplexity : ℚ
  validationPhases : List String
  minimumPassRate : ℚ
  criticalRequirementsPassRate : ℚ
  performanceThreshold : String
deriving DecidableEq, Repr

/-- `strategy_counts[strategy] = strategy_counts.get(strategy, 0) + 1` on an
insertion-ordered dict. -/
def addCount (gs : List (String × Nat)) (k : String) : List (String × Nat) :=
  match gs with
  | [] => [(k, 1)]
  | (q, n) :: rest =>
    if q = k then (q, n + 1) :: rest else (q, n) :: addCount rest k

/-- `_create_validation_strategy` of the basic mapper. `primary_strategy` is
Python's first-maximum `max(strategy_counts, key=strategy_counts.get)`,
guarded to `"standard"` on an empty dict. -/
def createValidationStrategyBasic (reqs : List RequirementAnalysis) :
    ValidationStrategyBasic :=
  let counts := reqs.foldl (fun gs r => addCount gs r.validationStrategy) []
  let avg : ℚ :=
    if reqs.length = 0 then 0
    else ((reqs.map (fun r => r.complexity)).sum) / (reqs.length : ℚ)
  let primary :=
    match counts with
    | [] => "standard"
    | x :: xs => (xs.foldl (fun best p => if p.2 > best.2 then p else best) x).1
  { primaryStrategy := primary
  , strategyDistribution := counts
  , averageComplexity := round2 avg
  , validationPhases :=
      ["component_validation", "integration_validation", "end_to_end_validation"]
  , minimumPassRate := 8 / 10
  , criticalRequirementsPassRate := 1
  , performanceThreshold := "acceptable" }

/-! ## Basic mapper: top level (`create_project_workflow_mappings`) -/

/-- The dict `create_project_workflow_mappings` returns. The error path
returns empty dicts for the plan and strategy, modelled as `none`. -/
structure MappingOutput where
  projectId : String
  requirements : List RequirementAnalysis
  workflowMappings : List (String × WorkflowMapping)
  executionPlan : Option ExecutionPlanBasic
  validationStrategy : Option ValidationStrategyBasic
  estimatedTotalDuration : ℤ
  error : Option String
deriving DecidableEq, Repr

/-- The normal (no-exception) result of the `try` block. -/
def pipelineOutput (prd projectId : String) : MappingOutput :=
  let reqs := (parseRequirements prd).map analyzeRequirement
  { projectId := projectId
  , requirements := reqs
  , workflowMappings := createWorkflowMappings reqs
  , executionPlan := some (createExecutionPlanBasic reqs)
  , validationStrategy := some (createValidationStrategyBasic reqs)
  , estimatedTotalDuration := (reqs.map (fun r => r.estimatedDuration)).sum
  , error := none }

/-- The dict built by the `except` handler. -/
def errorOutput (cfgProjectId : Option String) (msg : String) : MappingOutput :=
  { projectId := cfgProjectId.getD "unknown"
  , requirements := []
  , workflowMappings := []
  , executionPlan := none
  , validationStrategy := none
  , estimatedTotalDuration := 0
  , error := some ("Failed to create project workflow mappings: " ++ msg) }

/-- `create_project_workflow_mappings`. `cfgProjectId` is
`project_config.get("project_id")`; `now` is the clock reading
`int(time.time())` used for the fallback project id; `internalFault` models
an exception raised by an internal step inside the `try` block (such as the
tracing call `span.add_info_events`) — every embedded pipeline step is total,
so a fault oracle stands in for the failures the `except` handler catches. -/
def createProjectWorkflowMappings (internalFault : Option String) (prd : String)
    (cfgProjectId : Option String) (now : Nat) : MappingOutput :=
  match internalFault with
  | some e => errorOutput cfgProjectId e
  | none => pipelineOutput prd (cfgProjectId.getD ("project_" ++ toString now))

/-! ## General numeric lemmas -/

/-- Characterization of the floor of a rational. -/
theorem floor_eq_of (q : ℚ) (n : ℤ) (h1 : (n : ℚ) ≤ q) (h2 : q < n + 1) : ⌊q⌋ = n :=
  Int.floor_eq_iff.mpr ⟨h1, by exact_mod_cast h2⟩

/-- `roundHalfEven` below the midpoint rounds down. -/
theorem roundHalfEven_eq_low (q : ℚ) (n : ℤ) (h1 : (n : ℚ) ≤ q) (h2 : q < n + 1 / 2) :
    roundHalfEven q = n := by
  have hf : ⌊q⌋ = n := floor_eq_of q n h1 (by linarith)
  unfold roundHalfEven
  rw [hf, if_pos (by linarith)]

/-- `roundHalfEven` above the midpoint rounds up. -/
theorem roundHalfEven_eq_high (q : ℚ) (n : ℤ) (h1 : (n : ℚ) + 1 / 2 < q) (h2 : q < n + 1) :
    roundHalfEven q = n + 1 := by
  have hf : ⌊q⌋ = n := floor_eq_of q n (by linarith) h2
  unfold roundHalfEven
  rw [hf, if_neg (by linarith), if_pos (by linarith)]

/-- `roundHalfEven` of a nonnegative rational is nonnegative. -/
theorem roundHalfEven_nonneg (q : ℚ) (h : 0 ≤ q) : 0 ≤ roundHalfEven q := by
  have h0 : (0 : ℤ) ≤ ⌊q⌋ := Int.le_floor.mpr (by exact_mod_cast h)
  unfold roundHalfEven
  split_ifs <;> omega

/-- `roundHalfEven` never exceeds an integer upper bound of its argument. -/
theorem roundHalfEven_le_int (q : ℚ) (n : ℤ) (h : q ≤ n) : roundHalfEven q ≤ n := by
  have hfl : ⌊q⌋ ≤ n := by
    have := Int.floor_le_floor (α := ℚ) h
    simpa using this
  have hfq : (⌊q⌋ : ℚ) ≤ q := Int.floor_le q
  unfold roundHalfEven
  split_ifs with hA hB hC
  · exact hfl
  · have hgt : (⌊q⌋ : ℚ) + 1 / 2 < q := by linarith
    have hlt : (⌊q⌋ : ℚ) < n := by linarith
    have : ⌊q⌋ < n := by exact_mod_cast hlt
    omega
  · exact hfl
  · have hhalf : q - ⌊q⌋ = 1 / 2 := le_antisymm (not_lt.mp hB) (not_lt.mp hA)
    have hlt : (⌊q⌋ : ℚ) < n := by linarith
    have : ⌊q⌋ < n := by exact_mod_cast hlt
    omega

/-- Rounding to two decimals keeps the unit interval. -/
theorem round2_mem_unit (q : ℚ) (h0 : 0 ≤ q) (h1 : q ≤ 1) :
    0 ≤ round2 q ∧ round2 q ≤ 1 := by
  have hn : 0 ≤ roundHalfEven (q * 100) := roundHalfEven_nonneg _ (by positivity)
  have hle : roundHalfEven (q * 100) ≤ (100 : ℤ) :=
    roundHalfEven_le_int _ 100 (by push_cast; linarith)
  unfold round2
  constructor
  · positivity
  · rw [div_le_one (by norm_num)]
    exact_mod_cast hle

/-! ## C1: classifier = priority-ordered argmax -/

/-- C1: for every requirement description, `_classify_requirement_type`
computes exactly the argmax over the five categories of the case-insensitive
pattern-match counts, with ties broken by the fixed priority order
ui → api → data → ai → system (the first category in this order attaining
the maximum wins), and returns `"system"` when every score is zero. -/
theorem classifyRequirementType_eq_spec_argmax (s : String) :
    classifyRequirementType s = classifySpecArgmax s := by
  have hui : ∀ t, specCatScore t "ui" = patScore t uiPatterns := fun t => rfl
  have hapi : ∀ t, specCatScore t "api" = patScore t apiPatterns := fun t => rfl
  have hdata : ∀ t, specCatScore t "data" = patScore t dataPatterns := fun t => rfl
  have hai : ∀ t, specCatScore t "ai" = patScore t aiPatterns := fun t => rfl
  have hsys : ∀ t, specCatScore t "system" = patScore t systemPatterns := fun t => rfl
  simp only [classifyRequirementType, classifySpecArgmax, typeScores, specCategoryOrder,
    requirementPatterns, maxScore, pyMaxByValue, List.map_cons, List.map_nil,
    List.foldl_cons, List.foldl_nil, hui, hapi, hdata, hai, hsys]
  generalize patScore (lowList s) uiPatterns = a
  generalize patScore (lowList s) apiPatterns = b
  generalize patScore (lowList s) dataPatterns = c
  generalize patScore (lowList s) aiPatterns = d
  generalize patScore (lowList s) systemPatterns = e
  simp only [apply_ite Prod.snd, apply_ite Prod.fst]
  split_ifs <;> first | rfl | omega

/-! ## C10: priority extraction totality and precedence -/

/-- C10: `_extract_priority` always returns one of high/medium/low, and a
text containing a high indicator (in particular one containing both a high
and a low indicator) is assigned `"high"`. -/
theorem extractPriority_total_high_precedence (s : String) :
    (extractPriority s = "high" ∨ extractPriority s = "medium" ∨
      extractPriority s = "low") ∧
    (highPriorityWords.any (fun w => occursIn w.toList (lowList s)) = true →
      lowPriorityWords.any (fun w => occursIn w.toList (lowList s)) = true →
      extractPriority s = "high") := by
  constructor
  · unfold extractPriority; split_ifs <;> tauto
  · intro h _
    unfold extractPriority
    rw [if_pos h]

/-- Witness for C10 at the text "must be optional", which contains both the
high indicator "must" and the low indicator "optional". -/
theorem extractPriority_total_high_precedence_witness :
    (highPriorityWords.any
        (fun w => occursIn w.toList (lowList "must be optional")) = true) ∧
    (lowPriorityWords.any
        (fun w => occursIn w.toList (lowList "must be optional")) = true) ∧
    extractPriority "must be optional" = "high" :=
  ⟨by decide, by decide,
    (extractPriority_total_high_precedence "must be optional").2
      (by decide) (by decide)⟩

/-! ## C2: execution-plan phase chain -/

/-- The phases are emitted in the fixed category order, restricted to the
categories present in the selection. -/
theorem buildPhases_map_category (comps : List (String × List String)) :
    ∀ (cats : List String) (n : Nat),
      (buildPhases comps cats n).map (fun p => p.category) =
        cats.filter (fun c => (comps.lookup c).isSome) := by
  intro cats
  induction cats with
  | nil => intro n; rfl
  | cons c rest ih =>
    intro n
    cases h : comps.lookup c with
    | none => simp [buildPhases, h, ih, List.filter_cons]
    | some cs => simp [buildPhases, h, mkPhase, ih, List.filter_cons]

/-- The phase at position `k` of `buildPhases _ _ n` carries number `n + k`
and depends on the previous phase number. -/
theorem buildPhases_getElem (comps : List (String × List String)) :
    ∀ (cats : List String) (n k : Nat) (p : Phase),
      (buildPhases comps cats n)[k]? = some p →
      p.phase = n + k ∧
      p.dependencies = (if n + k = 1 then [] else [n + k - 1]) := by
  intro cats
  induction cats with
  | nil => intro n k p hp; simp [buildPhases] at hp
  | cons c rest ih =>
    intro n k p hp
    simp only [buildPhases] at hp
    cases h : comps.lookup c with
    | none =>
      rw [h] at hp
      exact ih n k p hp
    | some cs =>
      rw [h] at hp
      cases k with
      | zero =>
        simp only [List.getElem?_cons_zero] at hp
        injection hp with hp
        subst hp
        simp [mkPhase]
      | succ j =>
        simp only [List.getElem?_cons_succ] at hp
        have hrec := ih (n + 1) j p hp
        have heq : n + (j + 1) = (n + 1) + j := by omega
        rw [heq]
        exact hrec

/-- C2 (amended): phases are emitted one per present category in the fixed
order system → data → api → ui → ai, and the dependency lists form a strict
linear chain of 1-based phase numbers: the phase at 0-based position `k`
carries `phase = k + 1` and `dependencies = []` for `k = 0`, else `[k]` —
the previous phase's number (the claim's `[k - 1]` holds for phase indices
only, not for the 1-based numbers the code stores). -/
theorem executionPlan_phase_chain (comps : List (String × List String)) :
    ((createExecutionPlanEnhanced comps).phases.map (fun p => p.category)) =
      categoryPriority.filter (fun c => (comps.lookup c).isSome) ∧
    ∀ (k : Nat) (p : Phase),
      ((createExecutionPlanEnhanced comps).phases)[k]? = some p →
      p.phase = k + 1 ∧ p.dependencies = (if k = 0 then [] else [k]) := by
  constructor
  · exact buildPhases_map_category comps categoryPriority 1
  · intro k p hp
    have h := buildPhases_getElem comps categoryPriority 1 k p hp
    refine ⟨?_, ?_⟩
    · have h1 := h.1
      omega
    · have h2 := h.2
      cases k with
      | zero => simpa using h2
      | succ j => rw [h2]; simp

/-- A selection with exactly the api and ui categories present. -/
def twoCategorySelection : List (String × List String) :=
  [("api_testing", ["rpanetwork"]), ("ui_testing", ["rpabrowser"])]

/-- Counterexample to C2 as stated: with categories api and ui present, the
code emits two phases and the second phase's dependency list is `[1]` (the
previous phase's 1-based number), not `[k - 1] = [0]` as the claim asserts
for 0-based indexing. -/
theorem executionPlan_phase_chain_counterexample :
    ((createExecutionPlanEnhanced twoCategorySelection).phases.map
        (fun p => p.category)) = ["api_testing", "ui_testing"] ∧
    ((createExecutionPlanEnhanced twoCategorySelection).phases.map
        (fun p => p.dependencies)) = [[], [1]] ∧
    ([[], [1]] : List (List Nat)) ≠ [[], [0]] := by decide

/-- Witness for C2 (amended) at the two-category selection, position 1. -/
theorem executionPlan_phase_chain_witness :
    (((createExecutionPlanEnhanced twoCategorySelection).phases)[1]? =
      some { phase := 2, name := "Ui Testing Phase", category := "ui_testing",
             components := ["rpabrowser"], estimatedDurationMinutes := 15,
             dependencies := [1] }) ∧
    ({ phase := 2, name := "Ui Testing Phase", category := "ui_testing",
       components := ["rpabrowser"], estimatedDurationMinutes := 15,
       dependencies := [1] } : Phase).phase = 1 + 1 ∧
    ({ phase := 2, name := "Ui Testing Phase", category := "ui_testing",
       components := ["rpabrowser"], estimatedDurationMinutes := 15,
       dependencies := [1] } : Phase).dependencies = [1] :=
  ⟨by decide,
   ((executionPlan_phase_chain twoCategorySelection).2 1 _ (by decide)).1,
   ((executionPlan_phase_chain twoCategorySelection).2 1 _ (by decide)).2⟩

/-! ## C3: duration estimation -/

/-- C3 (amended): `_estimate_duration` computes the `int()` truncation — the
floor, for the nonnegative values that occur — of
`base_duration[category] × (1 + complexity)`, not the rounding the claim
states; the base-duration table is {ui: 240, api: 180, data: 300, ai: 420,
system: 360}, and the claim's concrete example still holds:
420 × 1.9 = 798 exactly. -/
theorem estimateDuration_truncates (c : ℚ) (hc : 0 ≤ c) :
    (∀ t : String, estimateDuration t c = ⌊baseDurationOf t * (1 + c)⌋) ∧
    baseDurationOf "ui" = 240 ∧ baseDurationOf "api" = 180 ∧
    baseDurationOf "data" = 300 ∧ baseDurationOf "ai" = 420 ∧
    baseDurationOf "system" = 360 ∧
    estimateDuration "ai" (9 / 10) = 798 := by
  have hdur : ∀ t : String, estimateDuration t c = ⌊baseDurationOf t * (1 + c)⌋ := by
    intro t
    have hb : (0 : ℚ) ≤ baseDurationOf t := by
      unfold baseDurationOf; split_ifs <;> norm_num
    unfold estimateDuration pyInt
    rw [if_pos (by positivity)]
  refine ⟨hdur, rfl, rfl, rfl, rfl, rfl, ?_⟩
  have h798 : baseDurationOf "ai" * (1 + 9 / 10) = (798 : ℚ) := by
    show (420 : ℚ) * (1 + 9 / 10) = 798
    norm_num
  unfold estimateDuration pyInt
  rw [if_pos (by rw [h798]; norm_num), h798]
  exact floor_eq_of _ 798 (by norm_num) (by norm_num)

/-- The single requirement the extractor produces from the document
"ui should be low": category ui, priority low, complexity 0.09. -/
def uiLowReq : ParsedReq :=
  { id := "req_1", title := "ui should be low", description := "ui should be low",
    content := ["ui should be low"], priority := "low", rtype := "general" }

/-- Counterexample to C3 as stated: the requirement parsed from
"ui should be low" is classified ui with complexity 0.09, and the code's
duration is `int(240 × 1.09) = int(261.6) = 261`, while the claim's
`round(240 × 1.09) = 262`. -/
theorem estimateDuration_round_counterexample :
    parseRequirements "ui should be low" = [uiLowReq] ∧
    (analyzeRequirement uiLowReq).rtype = "ui" ∧
    (analyzeRequirement uiLowReq).complexity = 9 / 100 ∧
    (analyzeRequirement uiLowReq).estimatedDuration = 261 ∧
    roundHalfEven ((240 : ℚ) * (1 + 9 / 100)) = 262 ∧
    ((261 : ℤ) ≠ 262) := by
  have hcls : classifyRequirementType "ui should be low" = "ui" := by decide
  have hlen : ("ui should be low" : String).toList.length = 16 := by decide
  have htech : countTechnicalTerms "ui should be low" = 0 := by decide
  have hcomp : calculateComplexity "ui should be low" "low" = 9 / 100 := by
    have hdef : calculateComplexity "ui should be low" "low" =
        round2 (min ((("ui should be low" : String).toList.length : ℚ) / 1000) 1 * (3 / 10) +
                min ((countTechnicalTerms "ui should be low" : ℚ) / 10) 1 * (4 / 10) +
                priorityScoreOf "low" * (3 / 10)) := rfl
    rw [hdef, hlen, htech]
    have hps : priorityScoreOf "low" = 3 / 10 := rfl
    rw [hps, min_eq_left (by norm_num), min_eq_left (by norm_num)]
    have harg : ((16 : ℕ) : ℚ) / 1000 * (3 / 10) + ((0 : ℕ) : ℚ) / 10 * (4 / 10) +
        3 / 10 * (3 / 10) = 237 / 2500 := by push_cast; ring
    rw [harg]
    unfold round2
    rw [show (237 : ℚ) / 2500 * 100 = 948 / 100 by norm_num]
    rw [roundHalfEven_eq_low (948 / 100) 9 (by norm_num) (by norm_num)]
    norm_num
  have hdur : (analyzeRequirement uiLowReq).estimatedDuration = 261 := by
    have hshape : (analyzeRequirement uiLowReq).estimatedDuration =
        estimateDuration (classifyRequirementType "ui should be low")
          (calculateComplexity "ui should be low" "low") := rfl
    rw [hshape, hcls, hcomp]
    have hbase : baseDurationOf "ui" = 240 := rfl
    unfold estimateDuration pyInt
    rw [hbase]
    rw [if_pos (by norm_num)]
    rw [show (240 : ℚ) * (1 + 9 / 100) = 1308 / 5 by norm_num]
    exact floor_eq_of _ 261 (by norm_num) (by norm_num)
  have hrt : (analyzeRequirement uiLowReq).rtype = "ui" := by
    have hshape : (analyzeRequirement uiLowReq).rtype =
        classifyRequirementType "ui should be low" := rfl
    rw [hshape, hcls]
  have hcpx : (analyzeRequirement uiLowReq).complexity = 9 / 100 := by
    have hshape : (analyzeRequirement uiLowReq).complexity =
        calculateComplexity "ui should be low" "low" := rfl
    rw [hshape, hcomp]
  refine ⟨by decide, hrt, hcpx, hdur, ?_, by decide⟩
  rw [show (240 : ℚ) * (1 + 9 / 100) = 1308 / 5 by norm_num]
  exact roundHalfEven_eq_high (1308 / 5) 261 (by norm_num) (by norm_num)

/-- Witness for C3 (amended) at complexity 0.9. -/
theorem estimateDuration_truncates_witness :
    (0 : ℚ) ≤ 9 / 10 ∧ estimateDuration "ai" (9 / 10) = 798 :=
  ⟨by norm_num,
   (estimateDuration_truncates (9 / 10) (by norm_num)).2.2.2.2.2.2⟩

/-! ## C4: documents without an opening line -/

/-- Scanning lines none of which opens a requirement block leaves the parser
state empty. -/
theorem foldl_parseStep_no_indicator :
    ∀ (lines : List String),
      (∀ l ∈ lines, isIndicatorLine (pyStrip l) = false) →
      lines.foldl parseStep ([], none) = ([], none) := by
  intro lines
  induction lines with
  | nil => intro _; rfl
  | cons a as ih =>
    intro hall
    have ha : isIndicatorLine (pyStrip a) = false := hall a (by simp)
    have hstep : parseStep ([], none) a = ([], none) := by
      simp [parseStep, ha]
    rw [List.foldl_cons, hstep]
    exact ih (fun l hl => hall l (by simp [hl]))

/-- C4 (amended): a document with no opening line yields exactly one
synthetic requirement of type "general", and the later classification uses
that requirement's stored description — which is the full text for documents
of at most 500 characters but the first 500 characters followed by "..."
for longer ones (the claim's "classification uses the full untruncated text"
fails for those). -/
theorem no_indicator_single_general_requirement (prd : String)
    (h : ∀ l ∈ pyLines prd, isIndicatorLine (pyStrip l) = false) :
    parseRequirements prd = [generalReq prd] ∧
    (generalReq prd).rtype = "general" ∧
    (generalReq prd).description = pyTrunc prd ∧
    (parseRequirements prd).map (fun r => (analyzeRequirement r).rtype) =
      [classifyRequirementType (pyTrunc prd)] := by
  have hres := foldl_parseStep_no_indicator (pyLines prd) h
  have hparse : parseRequirements prd = [generalReq prd] := by
    unfold parseRequirements
    rw [hres]
    rfl
  refine ⟨hparse, rfl, rfl, ?_⟩
  rw [hparse]
  simp only [List.map_cons, List.map_nil, analyzeRequirement, generalReq]

/-- A 509-character document with no requirement indicator whose only
classifier-relevant word sits beyond the 500-character truncation point. -/
def longPlainDoc : String := String.mk (List.replicate 500 'z') ++ " database"

set_option maxRecDepth 40000 in
/-- Counterexample to C4 as stated: for the 509-character `longPlainDoc` the
synthetic requirement's description is the truncated copy, classification of
that description yields "system", while classification of the full document
text would yield "data" — so classification does not use the untruncated
text. -/
theorem truncated_description_classification_counterexample :
    parseRequirements longPlainDoc = [generalReq longPlainDoc] ∧
    (generalReq longPlainDoc).description =
      String.mk (List.replicate 500 'z') ++ "..." ∧
    (analyzeRequirement (generalReq longPlainDoc)).rtype = "system" ∧
    classifyRequirementType longPlainDoc = "data" ∧
    ("system" : String) ≠ "data" := by decide

/-- Witness for C4 (amended) at the empty document. -/
theorem no_indicator_single_general_requirement_witness :
    (∀ l ∈ pyLines "", isIndicatorLine (pyStrip l) = false) ∧
    parseRequirements "" = [generalReq ""] ∧
    (parseRequirements "").map (fun r => (analyzeRequirement r).rtype) =
      [classifyRequirementType (pyTrunc "")] :=
  ⟨by decide,
   (no_indicator_single_general_requirement "" (by decide)).1,
   (no_indicator_single_general_requirement "" (by decide)).2.2.2⟩

/-! ## C5: complexity formula and bounds -/

/-- Modelled from the spec's words (§4.3 / C5): the priority-score table
`{high: 0.8, medium: 0.5, low: 0.3}` on the three priorities. -/
def specPriorityScore (p : String) : ℚ :=
  if p = "high" then 8 / 10 else if p = "medium" then 5 / 10 else 3 / 10

/-- C5: `_calculate_complexity` equals
`round(0.3·length_score + 0.4·technical_score + 0.3·priority_score, 2)`
with `length_score = min(len/1000, 1)`, `technical_score` counting
whole-word matches of the five technical terms capped at 10, and the fixed
priority table; the result always lies in [0, 1]. -/
theorem complexity_formula_and_bounds (d p : String)
    (hp : p = "high" ∨ p = "medium" ∨ p = "low") :
    calculateComplexity d p =
      round2 ((3 / 10) * min ((d.toList.length : ℚ) / 1000) 1 +
              (4 / 10) * min ((countTechnicalTerms d : ℚ) / 10) 1 +
              (3 / 10) * specPriorityScore p) ∧
    0 ≤ calculateComplexity d p ∧ calculateComplexity d p ≤ 1 := by
  have hps : priorityScoreOf p = specPriorityScore p := by
    rcases hp with rfl | rfl | rfl <;> rfl
  have hps0 : 0 ≤ priorityScoreOf p ∧ priorityScoreOf p ≤ 1 := by
    unfold priorityScoreOf; split_ifs <;> norm_num
  have hL0 : (0 : ℚ) ≤ min ((d.toList.length : ℚ) / 1000) 1 :=
    le_min (by positivity) (by norm_num)
  have hL1 : min ((d.toList.length : ℚ) / 1000) 1 ≤ 1 := min_le_right _ _
  have hT0 : (0 : ℚ) ≤ min ((countTechnicalTerms d : ℚ) / 10) 1 :=
    le_min (by positivity) (by norm_num)
  have hT1 : min ((countTechnicalTerms d : ℚ) / 10) 1 ≤ 1 := min_le_right _ _
  have hdef : calculateComplexity d p =
      round2 (min ((d.toList.length : ℚ) / 1000) 1 * (3 / 10) +
              min ((countTechnicalTerms d : ℚ) / 10) 1 * (4 / 10) +
              priorityScoreOf p * (3 / 10)) := rfl
  have harg : min ((d.toList.length : ℚ) / 1000) 1 * (3 / 10) +
      min ((countTechnicalTerms d : ℚ) / 10) 1 * (4 / 10) +
      priorityScoreOf p * (3 / 10) =
      (3 / 10) * min ((d.toList.length : ℚ) / 1000) 1 +
      (4 / 10) * min ((countTechnicalTerms d : ℚ) / 10) 1 +
      (3 / 10) * specPriorityScore p := by
    rw [hps]; ring
  refine ⟨by rw [hdef, harg], ?_, ?_⟩
  · rw [hdef]
    exact (round2_mem_unit _ (by nlinarith [hps0.1, hps0.2])
      (by nlinarith [hps0.1, hps0.2])).1
  · rw [hdef]
    exact (round2_mem_unit _ (by nlinarith [hps0.1, hps0.2])
      (by nlinarith [hps0.1, hps0.2])).2

/-- Witness for C5 at the description "api security" with priority high. -/
theorem complexity_formula_and_bounds_witness :
    (("high" : String) = "high" ∨ ("high" : String) = "medium" ∨
      ("high" : String) = "low") ∧
    (calculateComplexity "api security" "high" =
      round2 ((3 / 10) * min ((("api security" : String).toList.length : ℚ) / 1000) 1 +
              (4 / 10) * min ((countTechnicalTerms "api security" : ℚ) / 10) 1 +
              (3 / 10) * specPriorityScore "high") ∧
      0 ≤ calculateComplexity "api security" "high" ∧
      calculateComplexity "api security" "high" ≤ 1) :=
  ⟨Or.inl rfl, complexity_formula_and_bounds "api security" "high" (Or.inl rfl)⟩

/-! ## C6: priority comes from the opening line -/

/-- One parser step preserves "priority was computed from the title". -/
theorem parseStep_priority_inv (done : List ParsedReq) (cur : Option ParsedReq)
    (a : String)
    (h1 : ∀ r ∈ done, r.priority = extractPriority r.title)
    (h2 : ∀ r, cur = some r → r.priority = extractPriority r.title) :
    (∀ r ∈ (parseStep (done, cur) a).1, r.priority = extractPriority r.title) ∧
    (∀ r, (parseStep (done, cur) a).2 = some r →
      r.priority = extractPriority r.title) := by
  cases cur with
  | none =>
    by_cases hind : isIndicatorLine (pyStrip a)
    · refine ⟨?_, ?_⟩
      · intro r hr
        simp [parseStep, hind] at hr
        exact h1 r hr
      · intro r hr
        simp [parseStep, hind] at hr
        rw [← hr]
    · refine ⟨?_, ?_⟩
      · intro r hr
        simp [parseStep, hind] at hr
        exact h1 r hr
      · intro r hr
        simp [parseStep, hind] at hr
  | some c =>
    have hc := h2 c rfl
    by_cases hind : isIndicatorLine (pyStrip a)
    · refine ⟨?_, ?_⟩
      · intro r hr
        simp [parseStep, hind] at hr
        rcases hr with hr | hr
        · exact h1 r hr
        · rw [hr]; exact hc
      · intro r hr
        simp [parseStep, hind] at hr
        rw [← hr]
    · by_cases hline : pyStrip a = ""
      · have hind0 : isIndicatorLine "" = false := by decide
        refine ⟨?_, ?_⟩
        · intro r hr
          simp [parseStep, hind, hline, hind0] at hr
          exact h1 r hr
        · intro r hr
          simp [parseStep, hind, hline, hind0] at hr
          rw [← hr]; exact hc
      · refine ⟨?_, ?_⟩
        · intro r hr
          simp [parseStep, hind, hline] at hr
          exact h1 r hr
        · intro r hr
          simp [parseStep, hind, hline] at hr
          rw [← hr]
          exact hc

/-- The parser fold preserves "priority was computed from the title". -/
theorem foldl_parseStep_priority_inv :
    ∀ (lines : List String) (done : List ParsedReq) (cur : Option ParsedReq),
      (∀ r ∈ done, r.priority = extractPriority r.title) →
      (∀ r, cur = some r → r.priority = extractPriority r.title) →
      (∀ r ∈ (lines.foldl parseStep (done, cur)).1,
        r.priority = extractPriority r.title) ∧
      (∀ r, (lines.foldl parseStep (done, cur)).2 = some r →
        r.priority = extractPriority r.title) := by
  intro lines
  induction lines with
  | nil => intro done cur h1 h2; exact ⟨h1, h2⟩
  | cons a as ih =>
    intro done cur h1 h2
    rw [List.foldl_cons]
    have hstep := parseStep_priority_inv done cur a h1 h2
    have hsplit : parseStep (done, cur) a =
        ((parseStep (done, cur) a).1, (parseStep (done, cur) a).2) := rfl
    rw [hsplit]
    exact ih _ _ hstep.1 hstep.2

/-- C6 (amended): every extracted requirement's priority equals
`_extract_priority` applied to its opening line (the block title) alone;
continuation lines appended to the block never influence the priority. -/
theorem priority_from_opening_line (prd : String) (r : ParsedReq)
    (hr : r ∈ parseRequirements prd) :
    r.priority = extractPriority r.title := by
  have hinv := foldl_parseStep_priority_inv (pyLines prd) [] none
    (by intro x hx; simp at hx) (by intro x hx; simp at hx)
  obtain ⟨hall, hcur⟩ := hinv
  unfold parseRequirements at hr
  rcases hfold : (pyLines prd).foldl parseStep ([], none) with ⟨done, cur⟩
  rw [hfold] at hr hall hcur
  simp only at hr hall hcur
  cases cur with
  | none =>
    by_cases hemp : done.isEmpty
    · rw [if_pos hemp] at hr
      simp at hr
      rw [hr]
      exact show ("medium" : String) =
        extractPriority "General System Requirements" by decide
    · rw [if_neg hemp] at hr
      exact hall r hr
  | some c =>
    have hne : (done ++ [c]).isEmpty = false := by
      simp [List.isEmpty_iff]
    rw [hne] at hr
    simp only [Bool.false_eq_true, if_false] at hr
    rcases List.mem_append.mp hr with hm | hm
    · exact hall r hm
    · simp at hm
      rw [hm]
      exact hcur c rfl

/-- Counterexample to C6 as stated: the block opened by the line
"The system should work" (priority indicators absent) continues with
"It is critical"; the block text contains the high indicator "critical",
yet the code assigns priority "medium", because `_extract_priority` only
ever sees the opening line. -/
theorem priority_from_block_counterexample :
    parseRequirements "The system should work\nIt is critical" =
      [{ id := "req_1", title := "The system should work",
         description := "The system should work It is critical",
         content := ["The system should work", "It is critical"],
         priority := "medium", rtype := "general" }] ∧
    occursIn "critical".toList
      (lowList "The system should work It is critical") = true ∧
    (("medium" : String) ≠ "high") := by decide

/-- The single requirement parsed from the document "ui must work". -/
def uiMustReq : ParsedReq :=
  { id := "req_1", title := "ui must work", description := "ui must work",
    content := ["ui must work"], priority := "high", rtype := "general" }

/-- Witness for C6 (amended) at the document "ui must work". -/
theorem priority_from_opening_line_witness :
    uiMustReq ∈ parseRequirements "ui must work" ∧
    uiMustReq.priority = extractPriority uiMustReq.title :=
  ⟨by decide, priority_from_opening_line "ui must work" uiMustReq (by decide)⟩

/-! ## C7: enhanced validation strategy -/

set_option maxHeartbeats 1000000 in
/-- C7: the enhanced validation strategy has exactly one validation type per
category present except system, with the fixed thresholds
{ui: 0.8, api: 0.9, data: 0.85, ai: 0.75}; `overall_strategy` is
"comprehensive" iff more than two validation types exist, else "standard";
and `success_criteria` carries `minimum_confidence` 0.8,
`required_validations` = the validation-type count, and
`allow_partial_success` true iff the complexity level derived from the
summed complexity-indicator counts is "basic" (total below 10). -/
theorem validation_strategy_structure (prd : String)
    (comps : List (String × List String)) (lvl : String)
    (vs : ValidationStrategyEnhanced)
    (hlvl : lvl = complexityLevelOf (totalComplexityScore prd))
    (hvs : vs = createValidationStrategyEnhanced lvl comps) :
    vs.validationTypes.countP (fun vt => vt.vtype == "ui_validation") =
      (if (comps.lookup "ui_testing").isSome then 1 else 0) ∧
    vs.validationTypes.countP (fun vt => vt.vtype == "api_validation") =
      (if (comps.lookup "api_testing").isSome then 1 else 0) ∧
    vs.validationTypes.countP (fun vt => vt.vtype == "data_validation") =
      (if (comps.lookup "data_processing").isSome then 1 else 0) ∧
    vs.validationTypes.countP (fun vt => vt.vtype == "intelligence_validation") =
      (if (comps.lookup "ai_processing").isSome then 1 else 0) ∧
    vs.validationTypes.length =
      (if (comps.lookup "ui_testing").isSome then 1 else 0) +
      (if (comps.lookup "api_testing").isSome then 1 else 0) +
      (if (comps.lookup "data_processing").isSome then 1 else 0) +
      (if (comps.lookup "ai_processing").isSome then 1 else 0) ∧
    (∀ vt ∈ vs.validationTypes,
      (vt.vtype = "ui_validation" → vt.confidenceThreshold = 8 / 10) ∧
      (vt.vtype = "api_validation" → vt.confidenceThreshold = 9 / 10) ∧
      (vt.vtype = "data_validation" → vt.confidenceThreshold = 85 / 100) ∧
      (vt.vtype = "intelligence_validation" → vt.confidenceThreshold = 75 / 100)) ∧
    (vs.overallStrategy = "comprehensive" ↔ 2 < vs.validationTypes.length) ∧
    (vs.overallStrategy = "standard" ↔ vs.validationTypes.length ≤ 2) ∧
    vs.successCriteria.minimumConfidence = 8 / 10 ∧
    vs.successCriteria.requiredValidations = vs.validationTypes.length ∧
    (vs.successCriteria.allowPartialSuccess = true ↔ lvl = "basic") ∧
    (lvl = "basic" ↔ totalComplexityScore prd < 10) := by
  subst hvs
  have hbasic : (lvl = "basic" ↔ totalComplexityScore prd < 10) := by
    rw [hlvl]
    unfold complexityLevelOf
    split_ifs with h1 h2 <;> simp [h1]
  have hallow : ((createValidationStrategyEnhanced lvl comps).successCriteria.allowPartialSuccess
      = true ↔ lvl = "basic") := by
    show ((lvl == "basic") = true ↔ lvl = "basic")
    simp
  by_cases h1 : (comps.lookup "ui_testing").isSome <;>
    by_cases h2 : (comps.lookup "api_testing").isSome <;>
      by_cases h3 : (comps.lookup "data_processing").isSome <;>
        by_cases h4 : (comps.lookup "ai_processing").isSome <;>
          refine ⟨?_, ?_, ?_, ?_, ?_, ?_, ?_, ?_, ?_, ?_, hallow, hbasic⟩ <;>
            simp [createValidationStrategyEnhanced, h1, h2, h3, h4,
              uiValidationType, apiValidationType, dataValidationType,
              intelligenceValidationType, List.countP_cons, List.countP_nil]

/-- Witness for C7 at the empty document with only the ui category present:
the membership hypothesis of the per-type threshold clause is discharged at
`uiValidationType`. -/
theorem validation_strategy_structure_witness :
    uiValidationType ∈ (createValidationStrategyEnhanced
      (complexityLevelOf (totalComplexityScore ""))
      [("ui_testing", ["rpabrowser"])]).validationTypes ∧
    (uiValidationType.vtype = "ui_validation" →
      uiValidationType.confidenceThreshold = 8 / 10) :=
  ⟨by simp [createValidationStrategyEnhanced, List.lookup],
   ((validation_strategy_structure "" [("ui_testing", ["rpabrowser"])]
      (complexityLevelOf (totalComplexityScore ""))
      (createValidationStrategyEnhanced
        (complexityLevelOf (totalComplexityScore ""))
        [("ui_testing", ["rpabrowser"])]) rfl rfl).2.2.2.2.2.1
      uiValidationType
      (by simp [createValidationStrategyEnhanced, List.lookup])).1⟩

/-! ## C8: determinism of the text-to-plan transformation -/

/-- C8 (amended): with `project_id` supplied in the configuration, the
basic mapper's output is a pure function of the document text — the clock
reading is not consulted, so repeated runs on identical input produce
identical output. -/
theorem identical_input_fixed_config_deterministic (prd pid : String)
    (t1 t2 : Nat) :
    createProjectWorkflowMappings none prd (some pid) t1 =
      createProjectWorkflowMappings none prd (some pid) t2 := rfl

/-- Counterexample to C8 as stated: without a configured `project_id` the
fallback id embeds the clock reading `int(time.time())`, so two runs on the
identical document "x" at clock readings 0 and 1 differ. -/
theorem identical_input_different_clock_counterexample :
    createProjectWorkflowMappings none "x" none 0 ≠
      createProjectWorkflowMappings none "x" none 1 := by
  intro h
  exact absurd (congrArg MappingOutput.projectId h) (by decide)

/-! ## C9: top-level error containment -/

/-- C9: the top level never propagates an internal failure: without a fault
it returns the normal output (no error field), and when any internal step
of the `try` block fails the handler returns the error record — error
message present, `requirements = []`, empty workflow mappings, empty
execution plan, empty validation strategy, and total duration 0. -/
theorem top_level_error_containment (internalFault : Option String)
    (prd : String) (cfgProjectId : Option String) (now : Nat) :
    (internalFault = none →
      (createProjectWorkflowMappings internalFault prd cfgProjectId now).error = none) ∧
    (∀ e, internalFault = some e →
      createProjectWorkflowMappings internalFault prd cfgProjectId now =
        errorOutput cfgProjectId e ∧
      (createProjectWorkflowMappings internalFault prd cfgProjectId now).error =
        some ("Failed to create project workflow mappings: " ++ e) ∧
      (createProjectWorkflowMappings internalFault prd cfgProjectId now).requirements = [] ∧
      (createProjectWorkflowMappings internalFault prd cfgProjectId now).workflowMappings = [] ∧
      (createProjectWorkflowMappings internalFault prd cfgProjectId now).executionPlan = none ∧
      (createProjectWorkflowMappings internalFault prd cfgProjectId now).validationStrategy = none ∧
      (createProjectWorkflowMappings internalFault prd cfgProjectId now).estimatedTotalDuration = 0) := by
  cases internalFault with
  | none => simp [createProjectWorkflowMappings, pipelineOutput]
  | some e => simp [createProjectWorkflowMappings, errorOutput]

/-- Witness for C9 at the fault "boom", document "x", no configured id. -/
theorem top_level_error_containment_witness :
    ((some "boom" : Option String) = some "boom") ∧
    (createProjectWorkflowMappings (some "boom") "x" none 0).error =
      some ("Failed to create project workflow mappings: " ++ "boom") ∧
    (createProjectWorkflowMappings (some "boom") "x" none 0).requirements = [] ∧
    (createProjectWorkflowMappings (some "boom") "x" none 0).executionPlan = none ∧
    (createProjectWorkflowMappings (some "boom") "x" none 0).estimatedTotalDuration = 0 :=
  ⟨rfl,
   ((top_level_error_containment (some "boom") "x" none 0).2 "boom" rfl).2.1,
   ((top_level_error_containment (some "boom") "x" none 0).2 "boom" rfl).2.2.1,
   ((top_level_error_containment (some "boom") "x" none 0).2 "boom" rfl).2.2.2.2.1,
   ((top_level_error_containment (some "boom") "x" none 0).2 "boom" rfl).2.2.2.2.2.2⟩

end AstronMapper
